import Mathlib

/-!
Verification of the PeripheralSession subsystem specified for the
CoreBluetooth peripheral-role header (`CBPeripheralManager.h`).

The repository ships interface declarations only; the executable behavior
of the peripheral-role session is described by the specification.  The
`CBPeripheralManagerState` enumeration is embedded directly from the
header; the session operations are modelled from the specification, as
noted on each definition.
-/

namespace PeripheralSession

/-- Embedded from `CBPeripheralManagerState` in the header: the six power
states, declared in this order with `Unknown = 0` and each subsequent
constant one larger. -/
inductive PowerState where
  | unknown
  | resetting
  | unsupported
  | unauthorized
  | poweredOff
  | poweredOn
  deriving DecidableEq, Repr

/-- The numeric value each `CBPeripheralManagerState` constant has in the
header (`NS_ENUM(NSInteger, ...)` starting at 0). -/
def PowerState.toNat : PowerState → Nat
  | .unknown => 0
  | .resetting => 1
  | .unsupported => 2
  | .unauthorized => 3
  | .poweredOff => 4
  | .poweredOn => 5

/-- All six power states, in declaration order. -/
def PowerState.all : List PowerState :=
  [.unknown, .resetting, .unsupported, .unauthorized, .poweredOff, .poweredOn]

/-- Modelled from the spec: a Characteristic has an identifier, a current
value (opaque byte sequence) and a size bound on that value (the sequence
is "size-bounded"); writes beyond the bound are invalid. -/
structure Characteristic where
  id : Nat
  value : List Nat
  maxLen : Nat
  deriving DecidableEq, Repr

/-- Modelled from the spec: a Service has an identifier, an ordered list of
Characteristics, and a list of included Service identifiers which must
reference already-published services. -/
structure Service where
  id : Nat
  characteristics : List Characteristic
  includes : List Nat
  deriving DecidableEq, Repr

/-- Modelled from the spec: one outbound notification accepted into the
bounded queue — the target subscriber, the characteristic, and the
(possibly truncated) value to deliver. -/
structure Notification where
  central : Nat
  charId : Nat
  value : List Nat
  deriving DecidableEq, Repr

/-- Modelled from the spec: results of the synchronous structural calls. -/
inductive PResult where
  | ok
  | dependencyError
  | notReadyError
  deriving DecidableEq, Repr

/-- Modelled from the spec: the result passed to `respondToRequest` for a
read request or a write-request batch. -/
inductive ATTResult where
  | success
  | attributeNotFound
  | invalidValueLength
  deriving DecidableEq, Repr

/-- Modelled from the spec: events the session raises to its listener. -/
inductive Event where
  | serviceAdded (sid : Nat) (res : PResult)
  | advertisingStarted (res : PResult)
  | readyToUpdate
  deriving DecidableEq, Repr

/-- Modelled from the spec: the Session state — current PowerState,
IsAdvertising flag, published Services, the subscriber records
(pairs of subscriber identity and subscribed characteristic identifier),
the bounded outbound notification queue and its fixed capacity. -/
structure Session where
  state : PowerState
  isAdvertising : Bool
  services : List Service
  subs : List (Nat × Nat)
  queue : List Notification
  capacity : Nat
  deriving DecidableEq, Repr

/-- Modelled from the spec: the initial session — state Unknown, not
advertising, no services, no subscriptions, empty queue. -/
def initialSession (cap : Nat) : Session :=
  { state := .unknown, isAdvertising := false, services := [],
    subs := [], queue := [], capacity := cap }

/-- Modelled from the spec: the power-state transition observed via
`peripheralManagerDidUpdateState:`.  Leaving PoweredOn stops advertising
and clears all subscriber records; entering Unsupported or Unauthorized
additionally clears the published Services (PoweredOff does not). -/
def didUpdateState (s : Session) (new : PowerState) : Session :=
  let s1 : Session := { s with state := new }
  let s2 : Session :=
    if s.state = .poweredOn ∧ new ≠ .poweredOn then
      { s1 with isAdvertising := false, subs := [] }
    else s1
  if new = .unsupported ∨ new = .unauthorized then
    { s2 with services := [] }
  else s2

/-- Modelled from the spec: fixed maximum update length (the transport MTU
bound that truncates `updateValue` payloads); the bound's concrete size is
unspecified, so the ATT default notification payload of 20 bytes is used. -/
def maximumUpdateValueLength : Nat := 20

/-- Modelled from the spec: the subscribers targeted by an `updateValue`
call — `none` means every current subscriber of the characteristic, an
explicit list is silently filtered down to those actually subscribed. -/
def updateTargets (s : Session) (cid : Nat) (centrals : Option (List Nat)) :
    List Nat :=
  match centrals with
  | none => (s.subs.filter (fun p => p.2 == cid)).map Prod.fst
  | some l => l.filter (fun c => s.subs.contains (c, cid))

/-- The notifications built for one `updateValue` call: one per target,
the value truncated to `maximumUpdateValueLength`. -/
def notesFor (value : List Nat) (cid : Nat) (targets : List Nat) :
    List Notification :=
  targets.map (fun c => ⟨c, cid, value.take maximumUpdateValueLength⟩)

/-- Modelled from the spec:
`updateValue:forCharacteristic:onSubscribedCentrals:` — all-or-nothing
across the targeted subscribers: if the remaining queue capacity cannot
hold one notification per target, nothing is enqueued and `false` is
returned; otherwise one notification per target, its value truncated to
`maximumUpdateValueLength`, is enqueued and `true` is returned. -/
def updateValue (value : List Nat) (cid : Nat) (centrals : Option (List Nat))
    (s : Session) : Bool × Session :=
  if (updateTargets s cid centrals).length ≤ s.capacity - s.queue.length then
    (true, { s with queue :=
        s.queue ++ notesFor value cid (updateTargets s cid centrals) })
  else
    (false, s)

/-- The notifications an operation appended to the queue of `s`. -/
def enqueuedAfter (s r : Session) : List Notification :=
  r.queue.drop s.queue.length

/-- First published service with the given identifier. -/
def findService (services : List Service) (sid : Nat) : Option Service :=
  services.find? (fun t => t.id == sid)

/-- First characteristic with the given identifier across the published
services, in registry order. -/
def findChar (services : List Service) (cid : Nat) : Option Characteristic :=
  services.findSome? (fun t => t.characteristics.find? (fun c => c.id == cid))

/-- Whether every included-service identifier of `svc` is already
published in `s`. -/
def includesPublished (s : Session) (svc : Service) : Bool :=
  svc.includes.all (fun i => s.services.any (fun t => t.id == i))

/-- Modelled from the spec: `addService:` — DependencyError when an
included service is not already published, NotReadyError when the state is
not PoweredOn, otherwise the service is published; in every case exactly
one `serviceAdded` event carrying the outcome is raised. -/
def addService (svc : Service) (s : Session) :
    PResult × Session × List Event :=
  let res : PResult :=
    if ¬ includesPublished s svc then .dependencyError
    else if s.state ≠ .poweredOn then .notReadyError
    else .ok
  let s' : Session :=
    if res = .ok then { s with services := svc :: s.services } else s
  (res, s', [Event.serviceAdded svc.id res])

/-- Whether a published service other than `sid` includes `sid`. -/
def includedByOther (s : Session) (sid : Nat) : Bool :=
  s.services.any (fun t => t.id != sid && t.includes.contains sid)

/-- Modelled from the spec: `removeService:` — DependencyError when
another published service includes it (the registry is left untouched),
otherwise the service is removed atomically. -/
def removeService (sid : Nat) (s : Session) : PResult × Session :=
  if includedByOther s sid then (.dependencyError, s)
  else (.ok, { s with services := s.services.filter (fun t => t.id != sid) })

/-- Modelled from the spec: `removeAllServices` clears the registry
unconditionally. -/
def removeAllServices (s : Session) : Session :=
  { s with services := [] }

/-- Modelled from the spec: `startAdvertising:` — NotReadyError when not
PoweredOn; otherwise advertising starts (last-writer-wins) and the outcome
is reported via an `advertisingStarted` event. -/
def startAdvertising (s : Session) : Session × List Event :=
  if s.state = .poweredOn then
    ({ s with isAdvertising := true }, [Event.advertisingStarted .ok])
  else
    (s, [Event.advertisingStarted .notReadyError])

/-- Modelled from the spec: `stopAdvertising` is idempotent and never
fails. -/
def stopAdvertising (s : Session) : Session :=
  { s with isAdvertising := false }

/-- Modelled from the spec: a `didSubscribe` event records the subscriber
for the characteristic; subscriptions only arise while PoweredOn (away
from PoweredOn the centrals are disconnected). -/
def didSubscribe (c cid : Nat) (s : Session) : Session :=
  if s.state = .poweredOn then
    { s with subs :=
        if s.subs.contains (c, cid) then s.subs else (c, cid) :: s.subs }
  else s

/-- Modelled from the spec: a `didUnsubscribe` event removes the
subscriber record for the characteristic. -/
def didUnsubscribe (c cid : Nat) (s : Session) : Session :=
  { s with subs := s.subs.filter (fun p => p != (c, cid)) }

/-- Modelled from the spec: a write request carries the originating
subscriber, the target characteristic and the proposed byte sequence. -/
structure WriteRequest where
  central : Nat
  charId : Nat
  value : List Nat
  deriving DecidableEq, Repr

/-- Modelled from the spec: why an individual write is invalid — the
target characteristic is unpublished, or the proposed value violates the
characteristic's length bound; `none` means the write is valid. -/
def writeError (s : Session) (r : WriteRequest) : Option ATTResult :=
  match findChar s.services r.charId with
  | none => some .attributeNotFound
  | some c => if c.maxLen < r.value.length then some .invalidValueLength
              else none

/-- The first failure in a write-request batch, if any. -/
def firstError (s : Session) (batch : List WriteRequest) : Option ATTResult :=
  batch.findSome? (writeError s)

/-- Set the value of every characteristic with identifier `cid`. -/
def writeChar (services : List Service) (cid : Nat) (v : List Nat) :
    List Service :=
  services.map (fun t =>
    { t with characteristics := t.characteristics.map (fun c =>
        if c.id == cid then { c with value := v } else c) })

/-- Modelled from the spec: `didReceiveWriteRequests` handling — the batch
is atomic: if any write is invalid, `respondToRequest` is called exactly
once with that failure and no write is applied; otherwise every write is
applied and a single success response is issued. -/
def didReceiveWriteRequests (batch : List WriteRequest) (s : Session) :
    List ATTResult × Session :=
  match firstError s batch with
  | some e => ([e], s)
  | none =>
      let applied := batch.foldl (fun svcs r => writeChar svcs r.charId r.value) s.services
      ([.success], { s with services := applied })

/-- Modelled from the spec: the external transport drains up to `n` queued
notifications; exactly one `readyToUpdate` event fires when the drain
freed capacity, and none when it did not. -/
def drainQueue (n : Nat) (s : Session) : Session × List Event :=
  if (s.queue.drop n).length < s.queue.length then
    ({ s with queue := s.queue.drop n }, [Event.readyToUpdate])
  else
    ({ s with queue := s.queue.drop n }, [])

/-- Modelled from the spec: one step of the session — a power-state
change, a structural or advertising call, a subscription event, an update,
a write batch, or an external drain. -/
inductive Step : Session → Session → Prop where
  | power (s : Session) (new : PowerState) : Step s (didUpdateState s new)
  | add (s : Session) (svc : Service) : Step s (addService svc s).2.1
  | remove (s : Session) (sid : Nat) : Step s (removeService sid s).2
  | removeAll (s : Session) : Step s (removeAllServices s)
  | advertise (s : Session) : Step s (startAdvertising s).1
  | stopAdvertise (s : Session) : Step s (stopAdvertising s)
  | subscribe (s : Session) (c cid : Nat) : Step s (didSubscribe c cid s)
  | unsubscribe (s : Session) (c cid : Nat) : Step s (didUnsubscribe c cid s)
  | update (s : Session) (value : List Nat) (cid : Nat)
      (centrals : Option (List Nat)) :
      Step s (updateValue value cid centrals s).2
  | writes (s : Session) (batch : List WriteRequest) :
      Step s (didReceiveWriteRequests batch s).2
  | drain (s : Session) (n : Nat) : Step s (drainQueue n s).1

/-- Sessions reachable from the initial session by any sequence of
steps. -/
inductive Reachable : Session → Prop where
  | init (cap : Nat) : Reachable (initialSession cap)
  | step {s s' : Session} : Reachable s → Step s s' → Reachable s'

/-! ## Concrete sessions used to witness the theorems -/

/-- A powered-on session with three subscribers of characteristic 7 and an
outbound queue of capacity 2. -/
def sessionA : Session :=
  { state := .poweredOn, isAdvertising := false, services := [],
    subs := [(1, 7), (2, 7), (3, 7)], queue := [], capacity := 2 }

/-! ## Flow control: updateValue -/

/-- C1: `updateValue` is all-or-nothing over its targeted subscriber set:
when the `k` targeted subscribers exceed the remaining capacity of the
outbound queue, nothing is enqueued and the call returns `false`;
otherwise exactly `k` notifications are enqueued and the call returns
`true`. -/
theorem updateValue_all_or_nothing (value : List Nat) (cid : Nat)
    (centrals : Option (List Nat)) (s : Session) :
    (s.capacity - s.queue.length < (updateTargets s cid centrals).length →
      updateValue value cid centrals s = (false, s)) ∧
    ((updateTargets s cid centrals).length ≤ s.capacity - s.queue.length →
      (updateValue value cid centrals s).1 = true ∧
      (updateValue value cid centrals s).2.queue.length =
        s.queue.length + (updateTargets s cid centrals).length) := by
  constructor
  · intro h
    rw [updateValue, if_neg (by omega)]
  · intro h
    rw [updateValue, if_pos h]
    exact ⟨rfl, by simp [notesFor]⟩

/-- Witness for C1: with capacity 2 and three subscribers of
characteristic 7, a nil-targeted update is refused with nothing enqueued,
while an update explicitly targeting two subscribers is accepted with
exactly two notifications enqueued. -/
theorem updateValue_all_or_nothing_witness :
    updateValue [1, 2] 7 none sessionA = (false, sessionA) ∧
    ((updateValue [1, 2] 7 (some [1, 2]) sessionA).1 = true ∧
     (updateValue [1, 2] 7 (some [1, 2]) sessionA).2.queue.length =
       sessionA.queue.length +
         (updateTargets sessionA 7 (some [1, 2])).length) :=
  ⟨(updateValue_all_or_nothing [1, 2] 7 none sessionA).1 (by decide),
   (updateValue_all_or_nothing [1, 2] 7 (some [1, 2]) sessionA).2 (by decide)⟩

/-- C8: an oversize value never makes `updateValue` fail — the outcome is
the same as for the value already truncated to
`maximumUpdateValueLength` — and every notification the call enqueues
carries the truncated value. -/
theorem updateValue_truncates (value : List Nat) (cid : Nat)
    (centrals : Option (List Nat)) (s : Session)
    (_h : maximumUpdateValueLength < value.length) :
    (updateValue value cid centrals s).1 =
      (updateValue (value.take maximumUpdateValueLength) cid centrals s).1 ∧
    (enqueuedAfter s (updateValue value cid centrals s).2).all
      (fun n => n.value == value.take maximumUpdateValueLength) = true := by
  constructor
  · by_cases hc :
      (updateTargets s cid centrals).length ≤ s.capacity - s.queue.length
    · rw [updateValue, if_pos hc, updateValue, if_pos hc]
    · rw [updateValue, if_neg hc, updateValue, if_neg hc]
  · by_cases hc :
      (updateTargets s cid centrals).length ≤ s.capacity - s.queue.length
    · rw [updateValue, if_pos hc]
      simp [enqueuedAfter, List.drop_left, notesFor, List.all_map,
        Function.comp]
    · rw [updateValue, if_neg hc]
      simp [enqueuedAfter]

/-- Witness for C8: a 21-byte value on a 20-byte bound is accepted and
enqueued truncated. -/
theorem updateValue_truncates_witness :
    (updateValue (List.range 21) 7 (some [1]) sessionA).1 =
      (updateValue ((List.range 21).take maximumUpdateValueLength) 7
        (some [1]) sessionA).1 ∧
    (enqueuedAfter sessionA
        (updateValue (List.range 21) 7 (some [1]) sessionA).2).all
      (fun n => n.value == (List.range 21).take maximumUpdateValueLength) =
      true :=
  updateValue_truncates (List.range 21) 7 (some [1]) sessionA (by decide)

/-- C9: subscribers passed explicitly to `updateValue` that are not
subscribed to the characteristic are silently filtered out: the call
behaves exactly as if they had not been passed, and every enqueued
notification targets a subscribed central. -/
theorem updateValue_ignores_unsubscribed (value : List Nat) (cid : Nat)
    (l : List Nat) (s : Session) :
    updateValue value cid (some l) s =
      updateValue value cid
        (some (l.filter (fun c => s.subs.contains (c, cid)))) s ∧
    (enqueuedAfter s (updateValue value cid (some l) s).2).all
      (fun n => s.subs.contains (n.central, cid)) = true := by
  have ht :
      updateTargets s cid
        (some (l.filter (fun c => s.subs.contains (c, cid)))) =
      updateTargets s cid (some l) := by
    simp [updateTargets, List.filter_filter]
  constructor
  · simp only [updateValue, ht]
  · by_cases hc :
      (updateTargets s cid (some l)).length ≤ s.capacity - s.queue.length
    · have hq : enqueuedAfter s (updateValue value cid (some l) s).2 =
          notesFor value cid (updateTargets s cid (some l)) := by
        rw [updateValue, if_pos hc, enqueuedAfter]
        exact List.drop_left _ _
      rw [hq, notesFor, List.all_eq_true]
      intro n hn
      obtain ⟨c, hcmem, rfl⟩ := List.mem_map.mp hn
      show s.subs.contains (c, cid) = true
      simp only [updateTargets] at hcmem
      exact (List.mem_filter.mp hcmem).2
    · rw [updateValue, if_neg hc]
      simp [enqueuedAfter]

/-! ## Power-state transitions -/

/-- C2: a transition that leaves PoweredOn changes exactly the state
field, clears IsAdvertising and the subscriber records, and clears the
published Services precisely when the new state is Unsupported or
Unauthorized (PoweredOff keeps them); the queue and its capacity are
untouched. -/
theorem didUpdateState_leaving_poweredOn (s : Session) (new : PowerState)
    (hOn : s.state = .poweredOn) (hne : new ≠ .poweredOn) :
    didUpdateState s new =
      { s with state := new, isAdvertising := false, subs := [],
               services :=
                 if new = .unsupported ∨ new = .unauthorized then []
                 else s.services } := by
  by_cases hu : new = .unsupported ∨ new = .unauthorized <;>
    simp [didUpdateState, hOn, hne, hu]

/-- Witness for C2: from a powered-on session with one published service,
powering off keeps the service while losing authorization clears it. -/
theorem didUpdateState_leaving_poweredOn_witness :
    didUpdateState { sessionA with services := [⟨4, [], []⟩] }
        PowerState.poweredOff =
      { { sessionA with services := [⟨4, [], []⟩] } with
          state := PowerState.poweredOff, isAdvertising := false,
          subs := [],
          services :=
            if PowerState.poweredOff = PowerState.unsupported ∨
               PowerState.poweredOff = PowerState.unauthorized then []
            else { sessionA with services := [⟨4, [], []⟩] }.services } ∧
    didUpdateState { sessionA with services := [⟨4, [], []⟩] }
        PowerState.unauthorized =
      { { sessionA with services := [⟨4, [], []⟩] } with
          state := PowerState.unauthorized, isAdvertising := false,
          subs := [],
          services :=
            if PowerState.unauthorized = PowerState.unsupported ∨
               PowerState.unauthorized = PowerState.unauthorized then []
            else { sessionA with services := [⟨4, [], []⟩] }.services } :=
  ⟨didUpdateState_leaving_poweredOn _ PowerState.poweredOff rfl (by decide),
   didUpdateState_leaving_poweredOn _ PowerState.unauthorized rfl (by decide)⟩

/-! ## Queue drain and readyToUpdate -/

/-- C7: a drain that frees queue capacity raises exactly one event, a
drain that frees none raises no event, and every raised event is
`readyToUpdate`. -/
theorem drainQueue_one_readyToUpdate (n : Nat) (s : Session) :
    (drainQueue n s).1.queue = s.queue.drop n ∧
    (drainQueue n s).2.length =
      (if (s.queue.drop n).length < s.queue.length then 1 else 0) ∧
    (drainQueue n s).2.all (fun e => e == Event.readyToUpdate) = true := by
  by_cases hc : 0 < s.queue.length ∧ 0 < n
  · simp [drainQueue, hc]
  · simp [drainQueue, hc]

/-! ## Service registry -/

/-- Looking a service up right after it is prepended finds it. -/
theorem findService_cons_self (svc : Service) (rest : List Service) :
    findService (svc :: rest) svc.id = some svc := by
  simp [findService, List.find?_cons_of_pos]

/-- Any characteristic identifier of a prepended service is found by the
registry lookup read/write requests use. -/
theorem findChar_cons_of_mem (svc : Service) (rest : List Service)
    (cid : Nat) (h : ∃ c ∈ svc.characteristics, c.id = cid) :
    ∃ c', findChar (svc :: rest) cid = some c' ∧ c'.id = cid := by
  obtain ⟨c, hc, rfl⟩ := h
  have hsome : (svc.characteristics.find? (fun x => x.id == c.id)).isSome := by
    rw [List.find?_isSome]
    exact ⟨c, hc, by simp⟩
  obtain ⟨c', hc'⟩ := Option.isSome_iff_exists.mp hsome
  refine ⟨c', ?_, ?_⟩
  · simp [findChar, List.findSome?_cons, hc']
  · simpa using List.find?_some hc'

/-- C4: `addService` fails with DependencyError when an included service
is unpublished, fails with NotReadyError when the session is not
PoweredOn, raises in every case exactly one `serviceAdded` event carrying
the outcome, and on success publishes the service so that the registry
lookups used by read/write requests find it and its characteristics. -/
theorem addService_spec (svc : Service) (s : Session) :
    (addService svc s).2.2 =
      [Event.serviceAdded svc.id (addService svc s).1] ∧
    (includesPublished s svc = false →
      addService svc s =
        (.dependencyError, s,
         [Event.serviceAdded svc.id .dependencyError])) ∧
    (includesPublished s svc = true → s.state ≠ .poweredOn →
      addService svc s =
        (.notReadyError, s, [Event.serviceAdded svc.id .notReadyError])) ∧
    (includesPublished s svc = true → s.state = .poweredOn →
      (addService svc s).1 = .ok ∧
      (addService svc s).2.1 = { s with services := svc :: s.services } ∧
      findService (addService svc s).2.1.services svc.id = some svc ∧
      (∀ cid, (∃ c ∈ svc.characteristics, c.id = cid) →
        ∃ c', findChar (addService svc s).2.1.services cid = some c' ∧
          c'.id = cid)) := by
  refine ⟨rfl, ?_, ?_, ?_⟩
  · intro hInc
    simp [addService, hInc]
  · intro hInc hOn
    simp [addService, hInc, hOn]
  · intro hInc hOn
    have hs' : (addService svc s).2.1 =
        { s with services := svc :: s.services } := by
      simp [addService, hInc, hOn]
    refine ⟨by simp [addService, hInc, hOn], hs', ?_, ?_⟩
    · rw [hs']
      exact findService_cons_self svc s.services
    · intro cid hcid
      rw [hs']
      exact findChar_cons_of_mem svc s.services cid hcid

/-- The service published by the witness for C4. -/
def svcA : Service := ⟨11, [⟨5, [0], 4⟩], []⟩

/-- Witness for C4: publishing a service with no includes on a powered-on
session succeeds and makes the service and its characteristic 5 visible. -/
theorem addService_spec_witness :
    (addService svcA sessionA).1 = .ok ∧
    (addService svcA sessionA).2.1 =
      { sessionA with services := svcA :: sessionA.services } ∧
    findService (addService svcA sessionA).2.1.services svcA.id =
      some svcA ∧
    (∃ c', findChar (addService svcA sessionA).2.1.services 5 = some c' ∧
      c'.id = 5) := by
  have h := (addService_spec svcA sessionA).2.2.2 (by decide) rfl
  exact ⟨h.1, h.2.1, h.2.2.1, h.2.2.2 5 ⟨⟨5, [0], 4⟩, by decide, rfl⟩⟩

/-- C6: `removeService` fails with DependencyError — leaving the registry
exactly as it was — when another published service includes the target,
and otherwise removes the service fully and atomically. -/
theorem removeService_spec (sid : Nat) (s : Session) :
    (includedByOther s sid = true →
      removeService sid s = (.dependencyError, s)) ∧
    (includedByOther s sid = false →
      (removeService sid s).1 = .ok ∧
      (removeService sid s).2 =
        { s with services := s.services.filter (fun t => t.id != sid) } ∧
      (removeService sid s).2.services.all (fun t => t.id != sid) = true) := by
  constructor
  · intro h
    simp [removeService, h]
  · intro h
    have hs : (removeService sid s).2 =
        { s with services := s.services.filter (fun t => t.id != sid) } := by
      simp [removeService, h]
    refine ⟨by simp [removeService, h], hs, ?_⟩
    rw [hs, List.all_eq_true]
    intro t ht
    exact (List.mem_filter.mp ht).2

/-- A session publishing service 1, which includes service 2. -/
def sessionB : Session :=
  { sessionA with services := [⟨1, [], [2]⟩, ⟨2, [], []⟩] }

/-- Witness for C6: removing the included service 2 is refused with the
registry untouched, while removing service 1 succeeds and removes it
fully. -/
theorem removeService_spec_witness :
    removeService 2 sessionB = (.dependencyError, sessionB) ∧
    ((removeService 1 sessionB).1 = .ok ∧
     (removeService 1 sessionB).2 =
       { sessionB with
           services := sessionB.services.filter (fun t => t.id != 1) } ∧
     (removeService 1 sessionB).2.services.all (fun t => t.id != 1) =
       true) :=
  ⟨(removeService_spec 2 sessionB).1 (by decide),
   (removeService_spec 1 sessionB).2 (by decide)⟩

/-! ## Write-request batches -/

/-- An individual write never fails with the success result. -/
theorem writeError_ne_success (s : Session) (r : WriteRequest) :
    writeError s r ≠ some .success := by
  unfold writeError
  cases h : findChar s.services r.charId with
  | none => simp
  | some c => by_cases hl : c.maxLen < r.value.length <;> simp [hl]

/-- C5: a write-request batch containing any invalid write is answered
with exactly one response, that response is a failure, and no write is
applied: the session is unchanged. -/
theorem writeBatch_atomic (batch : List WriteRequest) (s : Session)
    (h : ∃ r ∈ batch, writeError s r ≠ none) :
    (didReceiveWriteRequests batch s).1.length = 1 ∧
    (didReceiveWriteRequests batch s).1.all
      (fun e => e != ATTResult.success) = true ∧
    (didReceiveWriteRequests batch s).2 = s := by
  have hfe : firstError s batch ≠ none := by
    intro hnone
    rw [firstError, List.findSome?_eq_none_iff] at hnone
    obtain ⟨r, hr, hne⟩ := h
    exact hne (hnone r hr)
  obtain ⟨e, he⟩ := Option.ne_none_iff_exists'.mp hfe
  have hne : e ≠ ATTResult.success := by
    have he' := he
    rw [firstError] at he'
    obtain ⟨r, _, hre⟩ := List.exists_of_findSome?_eq_some he'
    intro hc
    subst hc
    exact writeError_ne_success s r hre
  simp [didReceiveWriteRequests, he, bne_iff_ne, hne]

/-- A session publishing characteristics 5 (bound 4) and 6 (bound 2). -/
def sessionC : Session :=
  { sessionA with services := [⟨4, [⟨5, [], 4⟩, ⟨6, [], 2⟩], []⟩] }

/-- Witness for C5: a batch of two writes whose second violates
characteristic 6's length bound draws a single failure response and
changes nothing. -/
theorem writeBatch_atomic_witness :
    (didReceiveWriteRequests
        [⟨1, 5, [1, 2]⟩, ⟨1, 6, [1, 2, 3]⟩] sessionC).1.length = 1 ∧
    (didReceiveWriteRequests
        [⟨1, 5, [1, 2]⟩, ⟨1, 6, [1, 2, 3]⟩] sessionC).1.all
      (fun e => e != ATTResult.success) = true ∧
    (didReceiveWriteRequests
        [⟨1, 5, [1, 2]⟩, ⟨1, 6, [1, 2, 3]⟩] sessionC).2 = sessionC :=
  writeBatch_atomic [⟨1, 5, [1, 2]⟩, ⟨1, 6, [1, 2, 3]⟩] sessionC (by decide)

/-! ## Reachability invariant: away from PoweredOn the session is clean -/

/-- Away from PoweredOn the session is not advertising and holds no
subscriber records. -/
def ClearedWhenOff (s : Session) : Prop :=
  s.state ≠ .poweredOn → s.isAdvertising = false ∧ s.subs = []

/-- The fields a power-state transition produces: the new state, with
IsAdvertising and the subscriber records cleared exactly when the
transition leaves PoweredOn. -/
theorem didUpdateState_fields (s : Session) (new : PowerState) :
    (didUpdateState s new).state = new ∧
    (didUpdateState s new).isAdvertising =
      (if s.state = .poweredOn ∧ new ≠ .poweredOn then false
       else s.isAdvertising) ∧
    (didUpdateState s new).subs =
      (if s.state = .poweredOn ∧ new ≠ .poweredOn then [] else s.subs) := by
  by_cases hc : s.state = .poweredOn ∧ new ≠ .poweredOn <;>
    by_cases hu : new = .unsupported ∨ new = .unauthorized <;>
      simp [didUpdateState, hc, hu]

/-- A session agreeing with a clean-off session on state, advertising and
subscriptions is clean-off. -/
theorem clearedWhenOff_congr {s s' : Session} (h : ClearedWhenOff s)
    (hst : s'.state = s.state) (hadv : s'.isAdvertising = s.isAdvertising)
    (hsubs : s'.subs = s.subs) : ClearedWhenOff s' := by
  intro hne
  rw [hst] at hne
  rw [hadv, hsubs]
  exact h hne

/-- Every step of the session preserves the clean-off invariant. -/
theorem step_preserves_cleared {s s' : Session} (h : ClearedWhenOff s)
    (st : Step s s') : ClearedWhenOff s' := by
  cases st with
  | power new =>
      obtain ⟨hst, hadv, hsubs⟩ := didUpdateState_fields s new
      intro hne
      rw [hst] at hne
      rw [hadv, hsubs]
      by_cases hc : s.state = .poweredOn ∧ new ≠ .poweredOn
      · rw [if_pos hc, if_pos hc]
        exact ⟨rfl, rfl⟩
      · rw [if_neg hc, if_neg hc]
        exact h (fun hon => hc ⟨hon, hne⟩)
  | add svc =>
      have hf : (addService svc s).2.1.state = s.state ∧
          (addService svc s).2.1.isAdvertising = s.isAdvertising ∧
          (addService svc s).2.1.subs = s.subs := by
        by_cases h1 : includesPublished s svc <;>
          by_cases h2 : s.state = PowerState.poweredOn <;>
            simp [addService, h1, h2]
      exact clearedWhenOff_congr h hf.1 hf.2.1 hf.2.2
  | remove sid =>
      have hf : (removeService sid s).2.state = s.state ∧
          (removeService sid s).2.isAdvertising = s.isAdvertising ∧
          (removeService sid s).2.subs = s.subs := by
        by_cases hc : includedByOther s sid <;> simp [removeService, hc]
      exact clearedWhenOff_congr h hf.1 hf.2.1 hf.2.2
  | removeAll =>
      exact clearedWhenOff_congr h rfl rfl rfl
  | advertise =>
      intro hne
      by_cases hOn : s.state = PowerState.poweredOn
      · rw [startAdvertising, if_pos hOn] at hne
        exact absurd hOn hne
      · rw [startAdvertising, if_neg hOn] at hne ⊢
        exact h hne
  | stopAdvertise =>
      intro hne
      exact ⟨rfl, (h hne).2⟩
  | subscribe c cid =>
      intro hne
      by_cases hOn : s.state = PowerState.poweredOn
      · rw [didSubscribe, if_pos hOn] at hne
        exact absurd hOn hne
      · rw [didSubscribe, if_neg hOn] at hne ⊢
        exact h hne
  | unsubscribe c cid =>
      intro hne
      have hs := h hne
      exact ⟨hs.1, by simp [didUnsubscribe, hs.2]⟩
  | update value cid centrals =>
      have hf : (updateValue value cid centrals s).2.state = s.state ∧
          (updateValue value cid centrals s).2.isAdvertising =
            s.isAdvertising ∧
          (updateValue value cid centrals s).2.subs = s.subs := by
        by_cases hc : (updateTargets s cid centrals).length ≤
            s.capacity - s.queue.length <;> simp [updateValue, hc]
      exact clearedWhenOff_congr h hf.1 hf.2.1 hf.2.2
  | writes batch =>
      have hf : (didReceiveWriteRequests batch s).2.state = s.state ∧
          (didReceiveWriteRequests batch s).2.isAdvertising =
            s.isAdvertising ∧
          (didReceiveWriteRequests batch s).2.subs = s.subs := by
        cases hfe : firstError s batch <;>
          simp [didReceiveWriteRequests, hfe]
      exact clearedWhenOff_congr h hf.1 hf.2.1 hf.2.2
  | drain n =>
      have hf : (drainQueue n s).1.state = s.state ∧
          (drainQueue n s).1.isAdvertising = s.isAdvertising ∧
          (drainQueue n s).1.subs = s.subs := by
        by_cases hc : 0 < s.queue.length ∧ 0 < n <;> simp [drainQueue, hc]
      exact clearedWhenOff_congr h hf.1 hf.2.1 hf.2.2

/-- Every reachable session satisfies the clean-off invariant. -/
theorem reachable_cleared {s : Session} (h : Reachable s) :
    ClearedWhenOff s := by
  induction h with
  | init cap => exact fun _ => ⟨rfl, rfl⟩
  | step _ hst ih => exact step_preserves_cleared ih hst

/-- C3: on any reachable session, a power-state transition that leaves
PoweredOn clears IsAdvertising and every subscriber record, and a
transition that re-enters PoweredOn yields a session that is not
advertising and has no subscriptions. -/
theorem poweredOn_reentry_clean (s : Session) (new : PowerState)
    (hr : Reachable s) :
    (s.state = .poweredOn → new ≠ .poweredOn →
      (didUpdateState s new).isAdvertising = false ∧
      (didUpdateState s new).subs = []) ∧
    (s.state ≠ .poweredOn →
      (didUpdateState s .poweredOn).isAdvertising = false ∧
      (didUpdateState s .poweredOn).subs = []) := by
  constructor
  · intro hOn hne
    obtain ⟨_, hadv, hsubs⟩ := didUpdateState_fields s new
    rw [hadv, hsubs, if_pos ⟨hOn, hne⟩, if_pos ⟨hOn, hne⟩]
    exact ⟨rfl, rfl⟩
  · intro hOff
    obtain ⟨_, hadv, hsubs⟩ := didUpdateState_fields s .poweredOn
    have hc : ¬(s.state = .poweredOn ∧
        (PowerState.poweredOn : PowerState) ≠ .poweredOn) :=
      fun hcc => hOff hcc.1
    rw [hadv, hsubs, if_neg hc, if_neg hc]
    exact reachable_cleared hr hOff

/-- Witness for C3: after powering on and subscribing central 1 to
characteristic 7, the reachable session powers off with advertising off
and no subscriptions left. -/
theorem poweredOn_reentry_clean_witness :
    (didUpdateState
        (didSubscribe 1 7 (didUpdateState (initialSession 2) .poweredOn))
        .poweredOff).isAdvertising = false ∧
    (didUpdateState
        (didSubscribe 1 7 (didUpdateState (initialSession 2) .poweredOn))
        .poweredOff).subs = [] :=
  (poweredOn_reentry_clean _ .poweredOff
      (Reachable.step
        (Reachable.step (Reachable.init 2) (Step.power _ _))
        (Step.subscribe _ 1 7))).1 (by decide) (by decide)

/-! ## The power-state enumeration -/

/-- C10: `PowerState` mirrors `CBPeripheralManagerState`: the numeric
values are Unknown = 0, Resetting = 1, Unsupported = 2, Unauthorized = 3,
PoweredOff = 4, PoweredOn = 5; PoweredOn is the unique maximum; the states
below PoweredOff are exactly Unknown, Resetting, Unsupported and
Unauthorized — strictly more states than the pair Unsupported,
Unauthorized that clears the Services. -/
theorem powerState_numbering :
    (PowerState.unknown.toNat = 0 ∧ PowerState.resetting.toNat = 1 ∧
     PowerState.unsupported.toNat = 2 ∧ PowerState.unauthorized.toNat = 3 ∧
     PowerState.poweredOff.toNat = 4 ∧ PowerState.poweredOn.toNat = 5) ∧
    (∀ st : PowerState, st ∈ PowerState.all) ∧
    PowerState.all.all
      (fun st => st == PowerState.poweredOn ||
        st.toNat < PowerState.poweredOn.toNat) = true ∧
    PowerState.all.filter
        (fun st => st.toNat < PowerState.poweredOff.toNat) =
      [.unknown, .resetting, .unsupported, .unauthorized] ∧
    [PowerState.unsupported, PowerState.unauthorized].length <
      (PowerState.all.filter
        (fun st => st.toNat < PowerState.poweredOff.toNat)).length := by
  refine ⟨by decide, ?_, by decide, by decide, by decide⟩
  intro st
  cases st <;> simp [PowerState.all]

end PeripheralSession
